import Mathlib

/-
Shallow embedding of the Ledger & Voucher Accounting Engine of
`src/index.tsx` (nac-accounting).

Conventions of the embedding:
* JS numbers that hold monetary amounts are modelled as `Int` (the engine
  only ever adds, subtracts and negates them; the claims under study are
  about integer-valued scenarios).
* Optional TS fields (`invoiceNumber?`, `gstNumber?`, `contact?`) become
  `Option String`.
* JS string truthiness (`if (ledgerId && amount)`, `name || 'Unknown
  Ledger'`, `invoiceNumber || id`) is modelled as "not the empty string".
* `Number(amountStr)` on the voucher form is modelled by `String.toInt?`;
  amount strings outside its domain (whose JS `Number` is `NaN` or a
  non-integer float) are outside the model and fall through as a no-op.
* Currency formatting (`formatCurrency`) is pure display; report cells are
  modelled by their numeric content (`Option Int`, `none` for the `'-'`
  placeholder cell).
* The Tally export is modelled structurally: one `TallyVoucherMsg` per
  `<VOUCHER>` block, with the two `<ALLLEDGERENTRIES.LIST>` legs carrying
  the literal `ISDEEMEDPOSITIVE` strings `"Yes"` / `"No"` exactly as the
  code interpolates them.
-/

namespace NAC

/-- The closed `LedgerGroup` union of `src/index.tsx` line 29. -/
inductive LedgerGroup where
  | Asset
  | Liability
  | Income
  | Expense
  | Bank
  | Cash
  | SundryDebtor
  | SundryCreditor
deriving DecidableEq, Repr

/-- `interface Ledger` of `src/index.tsx` lines 31-38. -/
structure Ledger where
  id : String
  name : String
  group : LedgerGroup
  gstNumber : Option String
  openingBalance : Int
  contact : Option String
deriving DecidableEq, Repr

/-- The closed voucher `type` union of `src/index.tsx` line 43. -/
inductive VoucherType where
  | Sales
  | Purchase
  | Receipt
  | Payment
  | Journal
  | Contra
deriving DecidableEq, Repr

/-- `interface Voucher` of `src/index.tsx` lines 40-48. -/
structure Voucher where
  id : String
  date : String
  type : VoucherType
  ledgerId : String
  amount : Int
  narration : String
  invoiceNumber : Option String
deriving DecidableEq, Repr

/-- `interface AppData` of `src/index.tsx` lines 58-66. -/
structure AppData where
  ledgers : List Ledger
  vouchers : List Voucher
  companyName : String
  companyAddress : String
  companyGst : String
  companyPhone : String
  companyEmail : String
deriving DecidableEq, Repr

/-- `addLedger` (`src/index.tsx` lines 280-282): append to the registry. -/
def addLedger (data : AppData) (l : Ledger) : AppData :=
  { data with ledgers := data.ledgers ++ [l] }

/-- `deleteLedger` (`src/index.tsx` lines 284-286): drop every ledger whose
id matches; the vouchers field is untouched. -/
def deleteLedger (data : AppData) (id : String) : AppData :=
  { data with ledgers := data.ledgers.filter (fun l => !(l.id == id)) }

/-- `addVoucher` (`src/index.tsx` lines 288-290): append to the journal,
with no validation of any field. -/
def addVoucher (data : AppData) (v : Voucher) : AppData :=
  { data with vouchers := data.vouchers ++ [v] }

/-- `deleteVoucher` (`src/index.tsx` lines 292-294). -/
def deleteVoucher (data : AppData) (id : String) : AppData :=
  { data with vouchers := data.vouchers.filter (fun v => !(v.id == id)) }

/-- Decimal digit accumulator for `jsNumberInt?`. -/
def digitsToNat : List Char → Nat → Option Nat
  | [], acc => some acc
  | c :: cs, acc =>
      if c.isDigit then digitsToNat cs (10 * acc + (c.toNat - Char.toNat '0'))
      else none

/-- Model of the JS `Number(...)` conversion restricted to integer
numerals: an optional leading `'-'` followed by decimal digits.  Strings
outside this fragment (whose JS value would be `NaN` or a non-integer
float) are mapped to `none`, i.e. they are outside the integer model of
amounts. -/
def jsNumberInt? (s : String) : Option Int :=
  match s.data with
  | [] => none
  | '-' :: c :: cs => (digitsToNat (c :: cs) 0).map (fun n => -(n : Int))
  | c :: cs => (digitsToNat (c :: cs) 0).map (fun n => (n : Int))

/-- `handleSave` of the voucher entry form (`src/index.tsx` lines 628-645).
The guard is JS truthiness of the two string form fields
(`if (ledgerId && amount)`); when it passes, the voucher is built with
`amount: Number(amount)` and appended via `addVoucher`.  `Number` is
modelled by `jsNumberInt?`; strings it cannot parse are outside the
integer model and are left as a no-op here. -/
def handleSave (data : AppData) (id date : String) (ty : VoucherType)
    (ledgerId amountStr narration invoiceNo : String) : AppData :=
  if ledgerId ≠ "" ∧ amountStr ≠ "" then
    match jsNumberInt? amountStr with
    | some n =>
        addVoucher data
          { id := id, date := date, type := ty, ledgerId := ledgerId,
            amount := n, narration := narration,
            invoiceNumber := some invoiceNo }
    | none => data
  else data

/-- The party-name resolution of the Tally export (`src/index.tsx` line
306): `data.ledgers.find(l => l.id === v.ledgerId)?.name || 'Unknown
Ledger'`.  The JS `||` also replaces an empty ledger name by the
sentinel. -/
def resolveLedgerName (ledgers : List Ledger) (ledgerId : String) : String :=
  match ledgers.find? (fun l => l.id == ledgerId) with
  | some l => if l.name = "" then "Unknown Ledger" else l.name
  | none => "Unknown Ledger"

/-- `['Sales', 'Payment'].includes(v.type)` (`src/index.tsx` lines 318,
319, 330, 331). -/
def isSalesOrPayment (t : VoucherType) : Bool :=
  t == .Sales || t == .Payment

/-- The contra-ledger inference of the export (`src/index.tsx` lines
324-326): default `'Cash Account'`, overridden for Sales and Purchase. -/
def contraLedgerName (t : VoucherType) : String :=
  if t == .Sales then "Sales Account"
  else if t == .Purchase then "Purchase Account"
  else "Cash Account"

/-- One `<ALLLEDGERENTRIES.LIST>` block of the export: ledger name, the
literal `ISDEEMEDPOSITIVE` string, and the signed amount. -/
structure TallyLeg where
  ledgerName : String
  isDeemedPositive : String
  amount : Int
deriving DecidableEq, Repr

/-- One `<VOUCHER>` message block of the export (`src/index.tsx` lines
309-334). -/
structure TallyVoucherMsg where
  vchType : VoucherType
  date : String
  narration : String
  voucherNumber : String
  partyLedgerName : String
  partyLeg : TallyLeg
  contraLeg : TallyLeg
deriving DecidableEq, Repr

/-- The per-voucher body of `exportToTally` (`src/index.tsx` lines
305-334): resolve the party name, strip `'-'` from the date, pick
`invoiceNumber || id` as reference, and emit the two legs with the
polarity strings and signed amounts exactly as interpolated by the
code. -/
def tallyVoucher (ledgers : List Ledger) (v : Voucher) : TallyVoucherMsg :=
  let ledgerName := resolveLedgerName ledgers v.ledgerId
  let dateStr := v.date.replace "-" ""
  let refNumber :=
    match v.invoiceNumber with
    | some s => if s = "" then v.id else s
    | none => v.id
  let sp := isSalesOrPayment v.type
  { vchType := v.type
    date := dateStr
    narration := v.narration
    voucherNumber := refNumber
    partyLedgerName := ledgerName
    partyLeg :=
      { ledgerName := ledgerName
        isDeemedPositive := if sp then "No" else "Yes"
        amount := if sp then v.amount else -v.amount }
    contraLeg :=
      { ledgerName := contraLedgerName v.type
        isDeemedPositive := if sp then "Yes" else "No"
        amount := if sp then -v.amount else v.amount } }

/-- `exportToTally` (`src/index.tsx` lines 301-347), modelled
structurally: `data.vouchers.forEach` appends one message block per
voucher, so the document body is the map of `tallyVoucher` over the
journal. -/
def exportToTally (data : AppData) : List TallyVoucherMsg :=
  data.vouchers.map (tallyVoucher data.ledgers)

/-- The `debits` accumulator of the trial balance (`src/index.tsx` line
793): sum of amounts of vouchers with this ledger's id and type Sales or
Receipt. -/
def debitTotal (vouchers : List Voucher) (l : Ledger) : Int :=
  (vouchers.filter
    (fun v => v.ledgerId == l.id && (v.type == .Sales || v.type == .Receipt))).foldl
    (fun s v => s + v.amount) 0

/-- The `credits` accumulator of the trial balance (`src/index.tsx` line
794): sum of amounts of vouchers with this ledger's id and type Purchase
or Payment. -/
def creditTotal (vouchers : List Voucher) (l : Ledger) : Int :=
  (vouchers.filter
    (fun v => v.ledgerId == l.id && (v.type == .Purchase || v.type == .Payment))).foldl
    (fun s v => s + v.amount) 0

/-- `net = l.openingBalance + debits - credits` (`src/index.tsx` line
797). -/
def ledgerNet (vouchers : List Voucher) (l : Ledger) : Int :=
  l.openingBalance + debitTotal vouchers l - creditTotal vouchers l

/-- `isCreditNature` (`src/index.tsx` line 800): computed by the trial
balance but never consulted by the rendered row. -/
def isCreditNature (g : LedgerGroup) : Bool :=
  g == .Liability || g == .Income || g == .SundryCreditor

/-- One rendered trial-balance row: particulars (name and group shown
side by side) and the numeric content of the Debit and Credit cells
(`none` is the `'-'` placeholder). -/
structure TBRow where
  name : String
  group : LedgerGroup
  debit : Option Int
  credit : Option Int
deriving DecidableEq, Repr

/-- The per-ledger body of the trial balance (`src/index.tsx` lines
792-816): `null` (here `none`) when `net === 0`, otherwise a row whose
Debit cell holds `net` when `net > 0` and whose Credit cell holds
`Math.abs(net)` when `net < 0`. -/
def trialBalanceRow (vouchers : List Voucher) (l : Ledger) : Option TBRow :=
  let net := ledgerNet vouchers l
  if net = 0 then none
  else some
    { name := l.name
      group := l.group
      debit := if net > 0 then some net else none
      credit := if net < 0 then some |net| else none }

/-- The trial balance table body: `data.ledgers.map(...)` where `null`
entries are dropped by the renderer, i.e. a `filterMap` in registry
insertion order. -/
def trialBalance (data : AppData) : List TBRow :=
  data.ledgers.filterMap (trialBalanceRow data.vouchers)

/-- `data.vouchers.filter(v => v.type === t).reduce((s,v) => s+v.amount, 0)`,
the aggregate used by the Profit & Loss panel for Sales, Purchase and
Payment (`src/index.tsx` lines 839, 843, 847). -/
def sumByType (vouchers : List Voucher) (t : VoucherType) : Int :=
  (vouchers.filter (fun v => v.type == t)).foldl (fun s v => s + v.amount) 0

/-- The four figures displayed by the Profit & Loss panel. -/
structure ProfitAndLoss where
  revenue : Int
  costOfGoods : Int
  directExpenses : Int
  netProfit : Int
deriving DecidableEq, Repr

/-- The Profit & Loss panel (`src/index.tsx` lines 836-852): the three
aggregates are computed from the journal, but the displayed Net Profit is
the hardcoded constant `formatCurrency(10000)` (line 851). -/
def computeProfitAndLoss (vouchers : List Voucher) : ProfitAndLoss :=
  { revenue := sumByType vouchers .Sales
    costOfGoods := sumByType vouchers .Purchase
    directExpenses := sumByType vouchers .Payment
    netProfit := 10000 }

/-- The spec-side per-voucher contribution to a ledger's net balance
(spec §4.3 steps 2-3): `+amount` for Sales/Receipt vouchers of this
ledger, `-amount` for Purchase/Payment ones, `0` for Journal/Contra and
for vouchers of other ledgers. -/
def specContribution (l : Ledger) (v : Voucher) : Int :=
  if v.ledgerId = l.id then
    match v.type with
    | .Sales => v.amount
    | .Receipt => v.amount
    | .Purchase => -v.amount
    | .Payment => -v.amount
    | .Journal => 0
    | .Contra => 0
  else 0

/-- The spec-side net balance (spec §4.3 step 3): opening balance plus
the summed contributions over the whole journal. -/
def specNetBalance (vouchers : List Voucher) (l : Ledger) : Int :=
  l.openingBalance + (vouchers.map (specContribution l)).sum

/-- The spec-side trial balance (spec §4.4): keep exactly the ledgers of
non-zero net, in registry order, and build each row from the sign of the
net: the Debit cell holds `net` when positive, the Credit cell holds
`|net|` when negative. -/
def specTrialBalance (data : AppData) : List TBRow :=
  (data.ledgers.filter (fun l => ledgerNet data.vouchers l != 0)).map
    (fun l =>
      { name := l.name
        group := l.group
        debit :=
          if ledgerNet data.vouchers l > 0 then some (ledgerNet data.vouchers l)
          else none
        credit :=
          if ledgerNet data.vouchers l < 0 then some |ledgerNet data.vouchers l|
          else none })

/-- Replace the `group` field of the ledger at position `i` of a
registry; a no-op when `i` is out of range.  Used to state that the trial
balance columns do not depend on any ledger's group. -/
def modifyGroup : List Ledger → Nat → LedgerGroup → List Ledger
  | [], _, _ => []
  | l :: ls, 0, g => { l with group := g } :: ls
  | l :: ls, i + 1, g => l :: modifyGroup ls i g

/-- The group-independent projection of a trial-balance row: particulars
name and the two amount columns. -/
def rowCells (r : TBRow) : String × Option Int × Option Int :=
  (r.name, r.debit, r.credit)

/-- The `vouchers` of `INITIAL_DATA` (`src/index.tsx` lines 81-86). -/
def initialVouchers : List Voucher :=
  [ { id := "V001", date := "2024-04-01", type := .Receipt, ledgerId := "1",
      amount := 50000, narration := "Capital Introduction",
      invoiceNumber := none },
    { id := "V002", date := "2024-04-02", type := .Purchase, ledgerId := "6",
      amount := 25000, narration := "Purchased computer parts",
      invoiceNumber := some "INV-99" },
    { id := "V003", date := "2024-04-05", type := .Sales, ledgerId := "5",
      amount := 45000, narration := "Sold 5 Laptops",
      invoiceNumber := some "NAC-001" },
    { id := "V004", date := "2024-04-06", type := .Payment, ledgerId := "7",
      amount := 12000, narration := "Office Rent Paid via Cash",
      invoiceNumber := none } ]

/-- A minimal app state with empty stores, used as a concrete input. -/
def emptyData : AppData :=
  { ledgers := [], vouchers := [], companyName := "New Age Computers",
    companyAddress := "", companyGst := "", companyPhone := "",
    companyEmail := "" }

/-- A concrete cash ledger. -/
def sampleLedger : Ledger :=
  { id := "1", name := "Cash Account", group := .Cash, gstNumber := none,
    openingBalance := 50000, contact := none }

/-- A concrete receipt voucher referencing `sampleLedger`. -/
def sampleVoucher : Voucher :=
  { id := "V001", date := "2024-04-01", type := .Receipt, ledgerId := "1",
    amount := 50000, narration := "Capital Introduction",
    invoiceNumber := none }

/-- A concrete one-ledger, one-voucher app state used as a concrete
input for the frame/export claims. -/
def sampleData : AppData :=
  { ledgers := [sampleLedger], vouchers := [sampleVoucher],
    companyName := "New Age Computers", companyAddress := "",
    companyGst := "", companyPhone := "", companyEmail := "" }

/-- A concrete Sales voucher. -/
def salesVoucher : Voucher :=
  { id := "V1", date := "2024-01-01", type := .Sales, ledgerId := "1",
    amount := 100, narration := "", invoiceNumber := none }

/-- A concrete ledger whose id is referenced by no voucher of
`initialVouchers`. -/
def unreferencedLedger : Ledger :=
  { id := "9", name := "Office Rent", group := .Expense, gstNumber := none,
    openingBalance := 1234, contact := none }

/-- A concrete ledger whose name is the empty string. -/
def blankNameLedger : Ledger :=
  { id := "1", name := "", group := .Cash, gstNumber := none,
    openingBalance := 0, contact := none }

/-- A registry whose only ledger has the empty string as its name. -/
def blankNameLedgers : List Ledger :=
  [blankNameLedger]

/-- A concrete voucher referencing the blank-named ledger. -/
def blankNameVoucher : Voucher :=
  { id := "V5", date := "2024-04-09", type := .Purchase, ledgerId := "1",
    amount := 10, narration := "", invoiceNumber := none }



/-- Folding voucher amounts from an arbitrary accumulator is the
accumulator plus the summed amounts. -/
theorem foldl_add_amount (l : List Voucher) (a : Int) :
    l.foldl (fun s v => s + v.amount) a = a + (l.map Voucher.amount).sum := by
  induction l generalizing a with
  | nil => simp
  | cons v vs ih => simp only [List.foldl_cons, List.map_cons, List.sum_cons, ih]; ring

/-- C1 counterexample: submitting a voucher with the negative amount
string `"-5"` through the voucher form is not rejected: the journal gains
exactly that voucher, with its negative amount stored. -/
theorem handleSave_negative_not_rejected_cex :
    (handleSave emptyData "V9" "2024-01-01" .Sales "1" "-5" "" "").vouchers
        ≠ emptyData.vouchers ∧
      (handleSave emptyData "V9" "2024-01-01" .Sales "1" "-5" "" "").vouchers =
        [{ id := "V9", date := "2024-01-01", type := .Sales, ledgerId := "1",
           amount := -5, narration := "", invoiceNumber := some "" }] ∧
      (-5 : Int) < 0 := by
  refine ⟨by decide, by decide, by decide⟩

/-- C1 amended: the add path performs no amount validation.  Whenever the
form's ledgerId and amount fields are non-empty and the amount string
denotes an integer `n` (negative included), `handleSave` appends the
voucher with amount `n`: the prior journal is preserved as a prefix and
its length grows by one. -/
theorem handleSave_appends_without_validation (data : AppData)
    (id date : String) (ty : VoucherType)
    (ledgerId amountStr narration invoiceNo : String) (n : Int)
    (hl : ledgerId ≠ "") (ha : amountStr ≠ "")
    (hn : jsNumberInt? amountStr = some n) :
    (handleSave data id date ty ledgerId amountStr narration invoiceNo).vouchers
      = data.vouchers ++
        [{ id := id, date := date, type := ty, ledgerId := ledgerId,
           amount := n, narration := narration,
           invoiceNumber := some invoiceNo }] := by
  unfold handleSave
  rw [if_pos ⟨hl, ha⟩, hn]
  rfl

/-- C1 amended, witness at a concrete negative amount. -/
theorem handleSave_appends_without_validation_witness :
    (handleSave emptyData "W1" "2024-01-02" .Payment "2" "-7" "rent" "R1").vouchers
      = emptyData.vouchers ++
        [{ id := "W1", date := "2024-01-02", type := .Payment, ledgerId := "2",
           amount := -7, narration := "rent", invoiceNumber := some "R1" }] :=
  handleSave_appends_without_validation emptyData "W1" "2024-01-02" .Payment
    "2" "-7" "rent" "R1" (-7) (by decide) (by decide) (by decide)

/-- C2 counterexample: for a Sales voucher the party leg's
`ISDEEMEDPOSITIVE` string is `"No"`, not the affirmative `"Yes"` the
claim requires for Sales. -/
theorem partyLeg_flag_sales_cex :
    salesVoucher.type = .Sales ∧
      (tallyVoucher [] salesVoucher).partyLeg.isDeemedPositive = "No" ∧
      ¬ ((tallyVoucher [] salesVoucher).partyLeg.isDeemedPositive = "Yes") := by
  refine ⟨rfl, by decide, by decide⟩

/-- C2 amended: the party leg's positive flag is the literal `"No"`
exactly when the voucher type is Sales or Payment (the flag is the
negation of `isPartyDebit`), `"Yes"` otherwise, while the party amount is
`+amount` for Sales/Payment and `-amount` for every other type. -/
theorem tallyVoucher_partyLeg_flag_amount (ledgers : List Ledger) (v : Voucher) :
    ((tallyVoucher ledgers v).partyLeg.isDeemedPositive = "No"
        ↔ (v.type = .Sales ∨ v.type = .Payment)) ∧
      ((tallyVoucher ledgers v).partyLeg.isDeemedPositive = "Yes"
        ↔ ¬ (v.type = .Sales ∨ v.type = .Payment)) ∧
      (tallyVoucher ledgers v).partyLeg.amount =
        (if v.type = .Sales ∨ v.type = .Payment then v.amount else -v.amount) := by
  cases v with
  | mk id date ty lid amt narr inv =>
    cases ty <;> simp [tallyVoucher, isSalesOrPayment]

/-- C3: on the initial journal the displayed net profit is the hardcoded
10000, while revenue minus cost of goods minus direct expenses is 8000. -/
theorem netProfit_placeholder_initial :
    (computeProfitAndLoss initialVouchers).netProfit = 10000 ∧
      (computeProfitAndLoss initialVouchers).revenue
          - (computeProfitAndLoss initialVouchers).costOfGoods
          - (computeProfitAndLoss initialVouchers).directExpenses = 8000 ∧
      (10000 : Int) ≠ 8000 := by
  refine ⟨by decide, by decide, by decide⟩

/-- C6: for every voucher the two exported legs are a net-zero pair: the
contra amount is the negation of the party amount (hence equal absolute
values), and the polarity strings are opposite. -/
theorem tallyVoucher_legs_net_zero (ledgers : List Ledger) (v : Voucher) :
    (tallyVoucher ledgers v).contraLeg.amount
        = -(tallyVoucher ledgers v).partyLeg.amount ∧
      |(tallyVoucher ledgers v).contraLeg.amount|
        = |(tallyVoucher ledgers v).partyLeg.amount| ∧
      (((tallyVoucher ledgers v).partyLeg.isDeemedPositive = "Yes" ∧
          (tallyVoucher ledgers v).contraLeg.isDeemedPositive = "No") ∨
        ((tallyVoucher ledgers v).partyLeg.isDeemedPositive = "No" ∧
          (tallyVoucher ledgers v).contraLeg.isDeemedPositive = "Yes")) := by
  cases h : isSalesOrPayment v.type <;>
    simp [tallyVoucher, h, abs_neg]

/-- C7: the export is total over the journal: it yields exactly one
message block per voucher, and every voucher's block occurs in the
output. -/
theorem exportToTally_total (data : AppData) :
    (exportToTally data).length = data.vouchers.length ∧
      ∀ v : Voucher, v ∈ data.vouchers →
        tallyVoucher data.ledgers v ∈ exportToTally data := by
  exact ⟨List.length_map _ _, fun v hv => List.mem_map_of_mem _ hv⟩

/-- C7 witness on a concrete one-voucher state. -/
theorem exportToTally_total_witness :
    tallyVoucher sampleData.ledgers sampleVoucher ∈ exportToTally sampleData :=
  (exportToTally_total sampleData).2 sampleVoucher (by decide)



/-- The summed spec contributions equal the debit filter-sum minus the
credit filter-sum of the trial-balance accumulators. -/
theorem specContribution_sum (l : Ledger) (vouchers : List Voucher) :
    (vouchers.map (specContribution l)).sum =
      ((vouchers.filter
        (fun v => v.ledgerId == l.id && (v.type == .Sales || v.type == .Receipt))).map
          Voucher.amount).sum -
      ((vouchers.filter
        (fun v => v.ledgerId == l.id && (v.type == .Purchase || v.type == .Payment))).map
          Voucher.amount).sum := by
  induction vouchers with
  | nil => simp
  | cons v vs ih =>
    obtain ⟨vid, vdate, vty, vlid, vamt, vnarr, vinv⟩ := v
    by_cases h : vlid = l.id <;>
      cases vty <;>
        simp [specContribution, h, List.filter_cons, ih] <;> ring

/-- C4: the trial-balance net of a ledger equals the spec-side net
balance (opening balance plus per-voucher contributions, Journal and
Contra contributing nothing), and a ledger referenced by no voucher keeps
exactly its opening balance. -/
theorem ledgerNet_eq_specNetBalance (vouchers : List Voucher) (l : Ledger) :
    ledgerNet vouchers l = specNetBalance vouchers l ∧
      ((∀ v ∈ vouchers, v.ledgerId ≠ l.id) →
        ledgerNet vouchers l = l.openingBalance) := by
  have hmain : ledgerNet vouchers l = specNetBalance vouchers l := by
    unfold ledgerNet specNetBalance debitTotal creditTotal
    rw [foldl_add_amount, foldl_add_amount, specContribution_sum]
    ring
  refine ⟨hmain, fun h => ?_⟩
  rw [hmain]
  unfold specNetBalance
  have hz : (vouchers.map (specContribution l)).sum = 0 := by
    apply List.sum_eq_zero
    intro x hx
    obtain ⟨v, hv, rfl⟩ := List.mem_map.mp hx
    simp [specContribution, h v hv]
  rw [hz]; ring

/-- C4 witness: `unreferencedLedger` is touched by no voucher of the
initial journal, so its net is its opening balance. -/
theorem ledgerNet_eq_specNetBalance_witness :
    ledgerNet initialVouchers unreferencedLedger =
      unreferencedLedger.openingBalance :=
  (ledgerNet_eq_specNetBalance initialVouchers unreferencedLedger).2 (by decide)

/-- Over any registry list, dropping the `null` rows of the code's
per-ledger map is the same as first filtering to the ledgers of non-zero
net and then building each row from the sign of its net. -/
theorem filterMap_row_eq_filter_map (vouchers : List Voucher) (ls : List Ledger) :
    ls.filterMap (trialBalanceRow vouchers) =
      (ls.filter (fun l => ledgerNet vouchers l != 0)).map
        (fun l =>
          { name := l.name
            group := l.group
            debit :=
              if ledgerNet vouchers l > 0 then some (ledgerNet vouchers l)
              else none
            credit :=
              if ledgerNet vouchers l < 0 then some |ledgerNet vouchers l|
              else none }) := by
  induction ls with
  | nil => rfl
  | cons l ls ih =>
    rw [List.filterMap_cons, List.filter_cons]
    by_cases h : ledgerNet vouchers l = 0
    · simp [trialBalanceRow, h, ih]
    · simp [trialBalanceRow, h, ih]

/-- C5: the trial balance equals its spec-side description: exactly the
ledgers of non-zero net, once each, in registry insertion order, the
Debit cell holding `net` when positive and the Credit cell holding
`|net|` when negative. -/
theorem trialBalance_eq_specTrialBalance (data : AppData) :
    trialBalance data = specTrialBalance data :=
  filterMap_row_eq_filter_map data.vouchers data.ledgers

/-- C8: deleting a ledger never touches the Voucher Journal, and a
voucher whose `ledgerId` referenced the deleted ledger exports with the
sentinel party name `"Unknown Ledger"`. -/
theorem deleteLedger_frame_and_unknown (data : AppData) (id : String) :
    (deleteLedger data id).vouchers = data.vouchers ∧
      ∀ v : Voucher, v.ledgerId = id →
        (tallyVoucher (deleteLedger data id).ledgers v).partyLedgerName
          = "Unknown Ledger" := by
  refine ⟨rfl, fun v hv => ?_⟩
  have hfind :
      ((deleteLedger data id).ledgers.find? (fun l => l.id == v.ledgerId))
        = none := by
    apply List.find?_eq_none.mpr
    intro l hl
    have hmem := (List.mem_filter.mp hl).2
    simp only [Bool.not_eq_true', beq_eq_false_iff_ne, ne_eq] at hmem
    simp [hv, hmem]
  simp [tallyVoucher, resolveLedgerName, hfind]

/-- C8 witness: after deleting ledger "1", the sample voucher is exported
with the sentinel party name. -/
theorem deleteLedger_frame_and_unknown_witness :
    (tallyVoucher (deleteLedger sampleData "1").ledgers sampleVoucher).partyLedgerName
      = "Unknown Ledger" :=
  (deleteLedger_frame_and_unknown sampleData "1").2 sampleVoucher rfl

/-- Changing a ledger's group does not change the name or the two amount
cells of its trial-balance row. -/
theorem trialBalanceRow_group (vouchers : List Voucher) (l : Ledger)
    (g : LedgerGroup) :
    (trialBalanceRow vouchers { l with group := g }).map rowCells =
      (trialBalanceRow vouchers l).map rowCells := by
  have hnet : ledgerNet vouchers { l with group := g } = ledgerNet vouchers l := rfl
  by_cases h : ledgerNet vouchers l = 0 <;>
    simp [trialBalanceRow, hnet, h, rowCells]

/-- Rewriting one ledger's group leaves the projected row list of the
registry unchanged. -/
theorem filterMap_modifyGroup (vouchers : List Voucher) (ls : List Ledger)
    (i : Nat) (g : LedgerGroup) :
    (modifyGroup ls i g).filterMap
        (fun l => (trialBalanceRow vouchers l).map rowCells) =
      ls.filterMap (fun l => (trialBalanceRow vouchers l).map rowCells) := by
  induction ls generalizing i with
  | nil => rfl
  | cons l ls ih =>
    cases i with
    | zero =>
      rw [modifyGroup, List.filterMap_cons, List.filterMap_cons,
        trialBalanceRow_group]
    | succ j =>
      rw [modifyGroup, List.filterMap_cons, List.filterMap_cons, ih]

/-- C9: the ledger group never influences which trial-balance column an
amount lands in: replacing any one ledger's group yields a trial balance
with identical names and Debit/Credit cells. -/
theorem trialBalance_group_invariant (data : AppData) (i : Nat)
    (g : LedgerGroup) :
    (trialBalance { data with ledgers := modifyGroup data.ledgers i g }).map
        rowCells =
      (trialBalance data).map rowCells := by
  unfold trialBalance
  rw [List.map_filterMap, List.map_filterMap]
  exact filterMap_modifyGroup data.vouchers data.ledgers i g

/-- C10: the exported party leg's ledger name is never the empty string;
in particular, when the voucher's ledgerId resolves to a ledger whose
name is empty, the export uses the sentinel `"Unknown Ledger"`. -/
theorem partyLeg_name_never_empty (ledgers : List Ledger) (v : Voucher) :
    (tallyVoucher ledgers v).partyLeg.ledgerName ≠ "" ∧
      ∀ l : Ledger, ledgers.find? (fun x => x.id == v.ledgerId) = some l →
        l.name = "" →
        (tallyVoucher ledgers v).partyLeg.ledgerName = "Unknown Ledger" := by
  have hname : (tallyVoucher ledgers v).partyLeg.ledgerName
      = resolveLedgerName ledgers v.ledgerId := rfl
  constructor
  · rw [hname]
    unfold resolveLedgerName
    cases hf : ledgers.find? (fun l => l.id == v.ledgerId) with
    | none => decide
    | some l =>
      by_cases hn : l.name = "" <;> simp [hn]
  · intro l hf hn
    rw [hname]
    unfold resolveLedgerName
    rw [hf]
    simp [hn]

/-- C10 witness: a ledger that exists but has the empty name is exported
under the sentinel. -/
theorem partyLeg_name_never_empty_witness :
    (tallyVoucher blankNameLedgers blankNameVoucher).partyLeg.ledgerName
      = "Unknown Ledger" :=
  (partyLeg_name_never_empty blankNameLedgers blankNameVoucher).2
    blankNameLedger (by decide) rfl

end NAC
